import Mathlib

/-!
# Verification of the Interviewer-AI recording/session core

Shallow embedding of the recording/session state machine, capture pipeline,
conversation coordinator and audio codec utilities of the Interviewer-AI
browser extension, together with proofs of the specified properties.

The embedding mirrors the JavaScript sources:
* `RecordingState` / `handleRecordingClick` / `updateButtonState` — the
  floating-button state machine (content UI controller).
* `startRecording` / `stopRecording` / `processRecordedAudio` /
  `resetToReadyState` — the capture pipeline (recording manager).
* `startInterview` / `requestMicrophonePermission` — session start.
* `sendPromptAndHandleHistory` — the conversation coordinator
  (background AI service).
* `createWAVheader` / `createWAVBlob` — the WAV container builder.
* `b64Encode` / `b64Decode` — the base64 transport codec used by
  `blobToBase64` / `base64ToBufferArray` (standard `btoa`/`atob` alphabet
  with `=` padding, which is what `FileReader.readAsDataURL` and `atob`
  implement in the browser).

JavaScript strings become `String`, binary buffers become `List Nat`
(bytes, each `< 256`), `undefined`-able fields become `Option`, and a
function that can `throw` returns `Except String`.
-/

/-- The four session states of the recording button
(`RecordingState` in the content scripts). -/
inductive RecordingState
  | ready
  | recording
  | processing
  | aiSpeaking
  deriving DecidableEq, Repr, Fintype

/-- Whether `updateButtonState` disables the trigger button in a given
state (`recordingButton.disabled = ...` in the UI controller): the button
is enabled in `READY` and `RECORDING` and disabled in `PROCESSING` and
`AI_SPEAKING`. -/
def buttonDisabled : RecordingState → Bool
  | .ready => false
  | .recording => false
  | .processing => true
  | .aiSpeaking => true

/-- The state transition performed synchronously by a click on the
recording button (`handleRecordingClick` in the UI controller), projected
to the session state:
* clicks in `PROCESSING` or `AI_SPEAKING` return immediately;
* in `READY`, `startRecording` first runs `updateButtonState(RECORDING)`;
* in `RECORDING`, `stopRecording` runs `updateButtonState(PROCESSING)`
  only when an active `MediaRecorder` exists (`mediaRecorder.state ===
  "recording"`), else it only logs a warning.
`recorderActive` is that guard. -/
def handleRecordingClick (s : RecordingState) (recorderActive : Bool) :
    RecordingState :=
  if s = .processing ∨ s = .aiSpeaking then s
  else if s = .ready then .recording
  else if s = .recording then (if recorderActive then .processing else s)
  else s

/-- Events that drive the recording-button machine during a sequence of
clicks: the click itself and the asynchronous completions the clicked
handlers register. Each non-click event names the source line that
changes `currentState`:
* `startRecordingFailed` — `startRecording`'s `catch` calls
  `resetToReadyState`;
* `recorderErrored` — `mediaRecorder.onerror` calls `resetToReadyState`;
* `aiReplyReceived` — `playAIResponse` runs
  `updateButtonState(AI_SPEAKING)`;
* `processingFinished` — `processRecordedAudio`'s `finally` calls
  `resetToReadyState`;
* `playbackEnded` / `playbackErrored` — the playback callbacks call
  `resetToReadyState`. -/
inductive SessionEvent
  | click (recorderActive : Bool)
  | startRecordingFailed
  | recorderErrored
  | aiReplyReceived
  | processingFinished
  | playbackEnded
  | playbackErrored
  deriving DecidableEq, Repr, Fintype

/-- One step of the recording-button machine: clicks go through
`handleRecordingClick`; `playAIResponse` sets `AI_SPEAKING`
unconditionally; every reset path is `resetToReadyState`, i.e.
`updateButtonState(READY)`. -/
def sessionStep (s : RecordingState) : SessionEvent → RecordingState
  | .click recorderActive => handleRecordingClick s recorderActive
  | .aiReplyReceived => .aiSpeaking
  | _ => .ready

/-! ## Capture pipeline and conversation coordination

The content scripts keep module-level mutable variables
(`currentState`, `audioChunks`, `mediaRecorder`); effects on them are
modelled by explicit state passing over `SessionState`. The remote
round trips (`speechToText`, `sendChatMessage`, `textToSpeech`) are
external collaborators; their outcomes are inputs to the pipeline. -/

/-- The `MediaRecorder.state` values the source inspects. -/
inductive MediaRecorderState
  | recording
  | inactive
  deriving DecidableEq, Repr

/-- The per-page mutable session variables of the content scripts:
the button/session state, the buffered audio chunks (each chunk a list
of bytes), the retained `MediaRecorder` handle, whether the microphone
stream's tracks are still live, and whether a synthesized reply is
currently playing. -/
structure SessionState where
  recState : RecordingState
  audioChunks : List (List Nat)
  mediaRecorder : Option MediaRecorderState
  micHeld : Bool
  playbackInFlight : Bool
  deriving DecidableEq, Repr

/-- `updateButtonState(state)`: sets `currentState` (the button rendering
is the pure function `buttonDisabled` of the state). -/
def updateButtonState (s : SessionState) (st : RecordingState) :
    SessionState :=
  { s with recState := st }

/-- `resetToReadyState()`: `updateButtonState(READY)`, clear
`audioChunks`, and if a `MediaRecorder` is retained, stop it (stopping a
recording recorder fires its `onstop` handler, which stops the stream's
tracks and releases the microphone) and drop the handle. -/
def resetToReadyState (s : SessionState) : SessionState :=
  let s := updateButtonState s .ready
  let s := { s with audioChunks := ([] : List (List Nat)) }
  match s.mediaRecorder with
  | some mr =>
      { s with mediaRecorder := none,
               micHeld := if mr = .recording then false else s.micHeld }
  | none => s

/-- Outcomes of the three remote round trips awaited by one
capture/reply cycle, as seen by the content scripts: the transcription
response, the chat response, and the synthesis response (base64 PCM). -/
structure PipelineEnv where
  transcription : Except String String
  chat : Except String String
  tts : Except String String
  deriving Repr

/-- `playAIResponse(aiText)`: `updateButtonState(AI_SPEAKING)`, then the
`textToSpeech` round trip; on failure the local `catch` shows the error
and returns (no reset here); on success `createAndPlayWAVBuffer` starts
playback (fire-and-forget: the function returns once `audio.play()` is
issued, the `ended`/error callbacks run later). -/
def playAIResponse (s : SessionState) (env : PipelineEnv) : SessionState :=
  let s := updateButtonState s .aiSpeaking
  match env.tts with
  | .error _ => s
  | .ok _ => { s with playbackInFlight := true }

/-- `handleAIResponse(aiText)`: shows the text and awaits
`playAIResponse`; its `catch` only shows an error. -/
def handleAIResponse (s : SessionState) (env : PipelineEnv) : SessionState :=
  playAIResponse s env

/-- `handleUserInteraction(userText)`: the `sendChatMessage` round trip;
on failure it rethrows (`"Failed to get AI response: ..."`); on success
it shows the transcription and awaits `handleAIResponse`. -/
def handleUserInteraction (s : SessionState) (env : PipelineEnv) :
    Except String SessionState :=
  match env.chat with
  | .error e => .error e
  | .ok _ => .ok (handleAIResponse s env)

/-- Result of one run of `processRecordedAudio`: the session variables
afterwards, whether the `speechToText` network message was sent, and
whether `processRecordedAudio`'s own `catch` showed an error (an error
shown inside `playAIResponse`'s local `catch` on a synthesis failure is
not counted here — that path returns normally to the caller). -/
structure PipelineResult where
  final : SessionState
  networkCalled : Bool
  errorShown : Bool
  deriving Repr

/-- `processRecordedAudio()`: throws on zero buffered chunks
(`"No audio data recorded"`) and on a zero-length finalized blob
(`"Recorded audio is empty"`) before any network message; otherwise
encodes the blob and sends `speechToText`, then awaits
`handleUserInteraction`; every throw is caught and shown; the `finally`
block runs `resetToReadyState` unconditionally — including on the
success path, where the await chain resolves as soon as playback has
been started. -/
def processRecordedAudio (s : SessionState) (env : PipelineEnv) :
    PipelineResult :=
  if s.audioChunks.isEmpty then
    ⟨resetToReadyState s, false, true⟩
  else if (s.audioChunks.map List.length).sum = 0 then
    ⟨resetToReadyState s, false, true⟩
  else
    match env.transcription with
    | .error _ => ⟨resetToReadyState s, true, true⟩
    | .ok _userText =>
        match handleUserInteraction s env with
        | .error _ => ⟨resetToReadyState s, true, true⟩
        | .ok s2 => ⟨resetToReadyState s2, true, false⟩

/-- The `mediaRecorder.onstop` handler: stops the stream's tracks
(releasing the microphone, the recorder is now inactive) and awaits
`processRecordedAudio`. -/
def mediaRecorderOnStop (s : SessionState) (env : PipelineEnv) :
    PipelineResult :=
  processRecordedAudio
    { s with micHeld := false, mediaRecorder := some .inactive } env

/-- The `mediaRecorder.onerror` handler: shows the error and calls
`resetToReadyState`. -/
def mediaRecorderOnError (s : SessionState) : SessionState :=
  resetToReadyState s

/-- How far `startRecording`'s try block gets before a throw, if at
all: `getUserMedia` can reject (no stream acquired); with the stream
live, `new MediaRecorder(stream, …)` can throw (e.g.
`NotSupportedError`; nothing assigned to `mediaRecorder`); with the
stream live and the recorder assigned, `mediaRecorder.start(1000)` can
throw (the recorder stays `"inactive"`); or everything succeeds and the
recorder is `"recording"`. -/
inductive StartRecordingOutcome
  | getUserMediaFailed (msg : String)
  | recorderConstructionFailed (msg : String)
  | recorderStartFailed (msg : String)
  | started
  deriving DecidableEq, Repr

/-- `startRecording()`: `updateButtonState(RECORDING)` first, then
`getUserMedia` acquires the stream (tracks live: `micHeld := true`),
`new MediaRecorder(stream, …)` is assigned, `audioChunks = []`, and the
recorder is started. Any throw is caught: the error is shown and
`resetToReadyState` runs. The `catch` has no reference to the local
`stream`; `resetToReadyState` stops tracks only through a retained
recorder in a non-`"inactive"` state, so a throw from the constructor
(no recorder assigned) or from `start()` (recorder still `"inactive"`)
leaves the acquired stream's tracks live. -/
def startRecording (s : SessionState) (outcome : StartRecordingOutcome) :
    SessionState :=
  let s := updateButtonState s .recording
  match outcome with
  | .getUserMediaFailed _ => resetToReadyState s
  | .recorderConstructionFailed _ =>
      resetToReadyState { s with micHeld := true }
  | .recorderStartFailed _ =>
      resetToReadyState
        { s with micHeld := true, mediaRecorder := some .inactive,
                 audioChunks := ([] : List (List Nat)) }
  | .started =>
      { s with micHeld := true, mediaRecorder := some .recording,
               audioChunks := ([] : List (List Nat)) }

/-- The session variables cleaned up: state `READY`, empty chunk buffer,
no retained `MediaRecorder`, microphone released. -/
def cleanedUp (s : SessionState) : Prop :=
  s.recState = .ready ∧ s.audioChunks = [] ∧ s.mediaRecorder = none ∧
    s.micHeld = false

/-- A session-entry value: `READY`, nothing buffered, no retained
recorder, microphone free, no playback. -/
def initialSession : SessionState :=
  ⟨.ready, [], none, false, false⟩

/-- A run where all three remote round trips succeed. -/
def allSuccessEnv : PipelineEnv :=
  ⟨.ok "what is two sum", .ok "Lets begin with the problem statement",
    .ok "UklGRg"⟩

/-- The session variables at entry to a capture's `onstop` after the
user clicked stop: state `PROCESSING`, one non-empty chunk buffered, the
recorder handle still present. -/
def stoppedCaptureSession : SessionState :=
  ⟨.processing, [[1, 2, 3]], some .recording, true, false⟩

/-! ## Session start and the microphone permission probe -/

/-- `requestMicrophonePermission()`: `getUserMedia({audio:true})`; on
grant the tracks are stopped immediately (permission probe only) and it
returns `true`; on denial it shows an error and throws
`"Microphone permission required"`. -/
def requestMicrophonePermission (granted : Bool) : Except String Bool :=
  if granted then .ok true
  else .error "Microphone permission required"

/-- Result of `startInterview`: the session variables and the persisted
`isInterviewActive` flag. -/
structure InterviewResult where
  session : SessionState
  isInterviewActive : Bool
  errorShown : Bool
  deriving Repr

/-- `startInterview(firstTime)` (content interviewer module):
`createRecordingButton()` puts the fresh button in `READY`, then
`updateButtonState(PROCESSING)` runs, the competing page widgets are
removed, the history is cleared and the opening prompt sent when
`firstTime` (its failures are caught internally), the active flag is
persisted, and `requestMicrophonePermission()` is awaited. On grant the
success notice shows and `resetToReadyState()` runs; on denial the
thrown error is caught, shown, and the active flag is persisted `false`
— no reset runs in the `catch`. -/
def startInterview (s : SessionState) (_firstTime : Bool)
    (micGranted : Bool) : InterviewResult :=
  let s := updateButtonState s .ready
  let s := updateButtonState s .processing
  match requestMicrophonePermission micGranted with
  | .error _ => ⟨s, false, true⟩
  | .ok _ => ⟨resetToReadyState s, true, false⟩

/-! ## Conversation coordinator (`sendPromptAndHandleHistory`) -/

/-- JavaScript `String.prototype.trim()`: drop whitespace from both ends
(modelled structurally over the character list so it is kernel
executable; Lean's `String.trim` is extensionally the same but defined
by well-founded recursion over byte positions). -/
def jsTrim (s : String) : String :=
  String.mk
    (((s.data.dropWhile Char.isWhitespace).reverse.dropWhile
        Char.isWhitespace).reverse)

/-- A transcript entry role (the `role` strings `"user"` / `"model"`). -/
inductive Role
  | user
  | model
  deriving DecidableEq, Repr

/-- One persisted transcript entry `{role, text}`. -/
structure HistoryEntry where
  role : Role
  text : String
  deriving DecidableEq, Repr

/-- One part of a model response candidate; `text` is absent for
non-text parts. -/
structure ResponsePart where
  text : Option String
  deriving DecidableEq, Repr

/-- The content of a response candidate. The source guards
`!candidate.content.parts || !candidate.content.parts[0]`; a missing
`parts` field and an empty `parts` array take the same branch, so both
are modelled as `parts = []`. -/
structure ResponseContent where
  parts : List ResponsePart
  deriving DecidableEq, Repr

/-- A response candidate; `content` may be absent. -/
structure ResponseCandidate where
  content : Option ResponseContent
  deriving DecidableEq, Repr

/-- A `generateContent` response. A missing `candidates` field and an
empty array take the same guarded branch and are both modelled as
`candidates = []`. -/
structure GenResponse where
  candidates : List ResponseCandidate
  deriving DecidableEq, Repr

/-- The outcome of the remote `generateContent` chat call: the promise
rejects, or resolves with a response object. -/
inductive ChatOutcome
  | apiError (msg : String)
  | response (resp : GenResponse)
  deriving DecidableEq, Repr

/-- `sendPromptAndHandleHistory(prompt)` (background AI service): loads
the persisted `conversationHistory` (`undefined` becomes `[]`), appends
the user turn in memory, and performs the chat call. On a thrown or
rejected call, or on a response that fails validation, the error is
rethrown (`enhanceApiError` only rewrites the message and always
rethrows, so errors are modelled by their original message) and
`setInStorage` is never reached: the persisted history is unchanged. If
the first candidate has no content parts, an empty model turn is
appended, persisted, and `""` returned. Otherwise the trimmed candidate
text is appended as the model turn, persisted, and returned. The first
component of the result is the persisted `conversationHistory`
afterwards. -/
def sendPromptAndHandleHistory (stored : Option (List HistoryEntry))
    (prompt : String) (outcome : ChatOutcome) :
    Option (List HistoryEntry) × Except String String :=
  if prompt = "" then (stored, .error "Prompt must be a non-empty string")
  else
    let history := (stored.getD []) ++ [⟨Role.user, prompt⟩]
    match outcome with
    | .apiError msg => (stored, .error msg)
    | .response resp =>
        match resp.candidates with
        | [] => (stored, .error "API did not return any candidates")
        | cand :: _ =>
            match cand.content with
            | none => (some (history ++ [⟨Role.model, ""⟩]), .ok "")
            | some content =>
                match content.parts with
                | [] => (some (history ++ [⟨Role.model, ""⟩]), .ok "")
                | part :: _ =>
                    match part.text with
                    | none => (stored, .error "AI response is empty")
                    | some aiText =>
                        if jsTrim aiText = "" then
                          (stored, .error "AI response is empty")
                        else
                          (some (history ++ [⟨Role.model, jsTrim aiText⟩]),
                            .ok (jsTrim aiText))

/-- The two-turn prior transcript of the specified scenario. -/
def twoTurnHistory : List HistoryEntry :=
  [⟨Role.user, "A"⟩, ⟨Role.model, "B"⟩]

/-- A successful chat response whose first candidate carries the text
`"Lets begin"`. -/
def okChatResponse : GenResponse :=
  ⟨[⟨some ⟨[⟨some "Lets begin"⟩]⟩⟩]⟩

/-! ## Audio codec utility: WAV container builder -/

/-- `DataView.setUint16(offset, v, true)`: the two bytes of
`v mod 2^16`, least significant first. -/
def u16le (v : Nat) : List Nat :=
  [v % 256, v / 256 % 256]

/-- `DataView.setUint32(offset, v, true)`: the four bytes of
`v mod 2^32`, least significant first. -/
def u32le (v : Nat) : List Nat :=
  [v % 256, v / 256 % 256, v / 65536 % 256, v / 16777216 % 256]

/-- `writeString(view, offset, text)`: `setUint8` of each character
code. -/
def writeStringBytes (text : String) : List Nat :=
  text.data.map (fun c => c.toNat % 256)

/-- The 44 header bytes written by `createWAVheader` after validation:
the writes at offsets 0..43 are contiguous, so the header is their
concatenation in offset order. -/
def createWAVheaderCore (sampleRate numChannels bitsPerSample
    dataLength : Nat) : List Nat :=
  let blockAlign := numChannels * bitsPerSample / 8
  let byteRate := sampleRate * blockAlign
  writeStringBytes "RIFF" ++ u32le (36 + dataLength) ++
    writeStringBytes "WAVE" ++ writeStringBytes "fmt " ++ u32le 16 ++
    u16le 1 ++ u16le numChannels ++ u32le sampleRate ++ u32le byteRate ++
    u16le blockAlign ++ u16le bitsPerSample ++ writeStringBytes "data" ++
    u32le dataLength

/-- `createWAVheader(sampleRate, numChannels, bitsPerSample,
dataLength)`: validates the parameters (positive sample rate, 1 or 2
channels, 8 or 16 bits per sample; a negative data length is not
representable in `Nat`) and produces the 44-byte header. -/
def createWAVheader (sampleRate numChannels bitsPerSample
    dataLength : Nat) : Except String (List Nat) :=
  if sampleRate = 0 then
    .error "Sample rate must be a positive number"
  else if numChannels < 1 ∨ numChannels > 2 then
    .error "Number of channels must be 1 (mono) or 2 (stereo)"
  else if bitsPerSample ≠ 16 ∧ bitsPerSample ≠ 8 then
    .error "Bits per sample must be 8 or 16"
  else
    .ok (createWAVheaderCore sampleRate numChannels bitsPerSample
      dataLength)

/-- `createWAVBlob(pcmData, sampleRate, numChannels, bitsPerSample)`:
rejects an empty PCM buffer, builds the header for the buffer's byte
length, and returns the header followed by the unmodified PCM bytes. -/
def createWAVBlob (pcmData : List Nat) (sampleRate numChannels
    bitsPerSample : Nat) : Except String (List Nat) :=
  if pcmData.length = 0 then .error "PCM data cannot be empty"
  else
    match createWAVheader sampleRate numChannels bitsPerSample
        pcmData.length with
    | .error e => .error ("Failed to create WAV blob: " ++ e)
    | .ok header => .ok (header ++ pcmData)

/-- Reading a little-endian 32-bit field at a byte offset, as a WAV
parser would. -/
def readU32LE (bytes : List Nat) (offset : Nat) : Nat :=
  bytes.getD offset 0 + 256 * bytes.getD (offset + 1) 0 +
    65536 * bytes.getD (offset + 2) 0 +
    16777216 * bytes.getD (offset + 3) 0

/-! ## Audio codec utility: base64 transport

`blobToBase64` delegates the encoding to the browser
(`FileReader.readAsDataURL`, i.e. `btoa`) and strips the data-URL
prefix; `base64ToBufferArray` delegates the decoding to `atob` and reads
the character codes back into a byte buffer. Both platform primitives
implement RFC 4648 base64 with the standard alphabet and `=` padding,
embedded executably below. (`atob` additionally throws on ill-formed
input; only well-formed encoder output is decoded here, so the decoder
is modelled total.) -/

/-- The standard base64 alphabet used by `btoa`/`atob`. -/
def b64Alphabet : List Char :=
  "ABCDEFGHIJKLMNOPQRSTUVWXYZabcdefghijklmnopqrstuvwxyz0123456789+/".data

/-- The alphabet character for a 6-bit value. -/
def b64Char (n : Nat) : Char :=
  b64Alphabet.getD n 'A'

/-- Position scan implementing the inverse alphabet lookup. -/
def b64IndexFrom : List Char → Char → Nat → Nat
  | [], _, _ => 0
  | a :: rest, c, acc => if a = c then acc else b64IndexFrom rest c (acc + 1)

/-- The 6-bit value of an alphabet character. -/
def b64Index (c : Char) : Nat :=
  b64IndexFrom b64Alphabet c 0

/-- `btoa` on a byte sequence: each 3-byte group becomes 4 alphabet
characters; a trailing 1- or 2-byte group is padded with `=`. -/
def b64Encode : List Nat → List Char
  | [] => []
  | [b0] => [b64Char (b0 / 4), b64Char (b0 % 4 * 16), '=', '=']
  | [b0, b1] =>
      [b64Char (b0 / 4), b64Char (b0 % 4 * 16 + b1 / 16),
        b64Char (b1 % 16 * 4), '=']
  | b0 :: b1 :: b2 :: rest =>
      b64Char (b0 / 4) :: b64Char (b0 % 4 * 16 + b1 / 16) ::
        b64Char (b1 % 16 * 4 + b2 / 64) :: b64Char (b2 % 64) ::
        b64Encode rest

/-- `atob` followed by `charCodeAt` on each character of the binary
string: each 4-character group yields 3 bytes, or fewer at the final
padded group. -/
def b64Decode : List Char → List Nat
  | c0 :: c1 :: c2 :: c3 :: rest =>
      let i0 := b64Index c0
      let i1 := b64Index c1
      if c2 = '=' then [i0 * 4 + i1 / 16]
      else
        let i2 := b64Index c2
        if c3 = '=' then [i0 * 4 + i1 / 16, i1 % 16 * 16 + i2 / 4]
        else
          (i0 * 4 + i1 / 16) :: (i1 % 16 * 16 + i2 / 4) ::
            (i2 % 4 * 64 + b64Index c3) :: b64Decode rest
  | _ => []

/-- `blobToBase64(blob)`: reads the blob as a data URL and takes the
base64 payload after the comma; an empty payload (empty blob) is
rejected with an error. -/
def blobToBase64 (bytes : List Nat) : Except String String :=
  let base64data := String.mk (b64Encode bytes)
  if base64data = "" then .error "Failed to extract base64 data from blob"
  else .ok base64data

/-- `base64ToBufferArray(base64)`: rejects an empty string, then decodes
via `atob` and collects the character codes into a byte buffer. -/
def base64ToBufferArray (base64 : String) : Except String (List Nat) :=
  if base64 = "" then .error "Base64 parameter must be a non-empty string"
  else .ok (b64Decode base64.data)

/-! ## Verified properties -/

/-- **C1.** Over every event of the recording-button machine — hence over
every sequence of recording-button clicks and the asynchronous completions
they spawn — the machine enters `RECORDING` only from `READY`, enters
`PROCESSING` only from `RECORDING`, and a click arriving in `PROCESSING`
or `AI_SPEAKING` leaves the state unchanged. -/
theorem click_transitions_guarded :
    ∀ (s : RecordingState) (e : SessionEvent),
      (sessionStep s e = RecordingState.recording →
        s = RecordingState.recording ∨ s = RecordingState.ready) ∧
      (sessionStep s e = RecordingState.processing →
        s = RecordingState.processing ∨ s = RecordingState.recording) ∧
      (∀ b : Bool,
        (s = RecordingState.processing ∨ s = RecordingState.aiSpeaking) →
        sessionStep s (SessionEvent.click b) = s) := by
  decide

/-- Witness for `click_transitions_guarded`: a click while `PROCESSING`
causes no transition. -/
theorem click_transitions_guarded_witness :
    sessionStep RecordingState.processing (SessionEvent.click true) =
      RecordingState.processing :=
  (click_transitions_guarded RecordingState.processing
    (SessionEvent.click true)).2.2 true (Or.inl rfl)

/-- **C2 (code bug).** Evaluating the success path: after the user stops
a capture and transcription, chat and synthesis all succeed,
`processRecordedAudio`'s `finally` block has already run
`resetToReadyState`, so the session state is `READY` and the trigger
control re-enabled while the synthesized reply is still playing — a
second capture cycle can start during playback. (The entry into
`PROCESSING`/`AI_SPEAKING` does disable the control, as the last two
conjuncts record, but the state does not remain there until playback
completes or errors.) -/
theorem reply_playback_outlives_disabled_state :
    (mediaRecorderOnStop stoppedCaptureSession allSuccessEnv).final.recState
        = RecordingState.ready ∧
    (mediaRecorderOnStop stoppedCaptureSession
        allSuccessEnv).final.playbackInFlight = true ∧
    buttonDisabled RecordingState.ready = false ∧
    buttonDisabled RecordingState.processing = true ∧
    buttonDisabled RecordingState.aiSpeaking = true := by
  decide

/-- **C3 (code bug).** Evaluating a caught capture failure in which
`getUserMedia` succeeded but `mediaRecorder.start(1000)` threw: the
`catch` runs `resetToReadyState`, which restores `READY`, clears the
buffer and drops the recorder handle — but the recorder is still
`"inactive"`, so its `stop()` is never called, the `catch` has no
reference to the acquired stream, and the live tracks are never
stopped: the microphone is NOT released after this caught capture
failure, refuting the claim that it always is. (The
`recorderConstructionFailed` path leaks identically.) -/
theorem capture_setup_failure_leaks_microphone :
    (startRecording initialSession
        (StartRecordingOutcome.recorderStartFailed
          "NotSupportedError")).recState = RecordingState.ready ∧
    (startRecording initialSession
        (StartRecordingOutcome.recorderStartFailed
          "NotSupportedError")).audioChunks = [] ∧
    (startRecording initialSession
        (StartRecordingOutcome.recorderStartFailed
          "NotSupportedError")).mediaRecorder = none ∧
    (startRecording initialSession
        (StartRecordingOutcome.recorderStartFailed
          "NotSupportedError")).micHeld = true ∧
    ¬cleanedUp (startRecording initialSession
        (StartRecordingOutcome.recorderStartFailed "NotSupportedError")) := by
  refine ⟨rfl, rfl, rfl, rfl, ?_⟩
  intro h
  exact absurd h.2.2.2 (by decide)

/-- **C8.** If a recording stops with zero buffered chunks or a
zero-length finalized blob, `processRecordedAudio` throws before the
`speechToText` message is built: no network call is attempted, the error
is shown to the user, and the `finally` reset leaves the pipeline at
`READY`. -/
theorem empty_capture_no_network (s : SessionState) (env : PipelineEnv)
    (h : s.audioChunks = [] ∨ (s.audioChunks.map List.length).sum = 0) :
    (processRecordedAudio s env).networkCalled = false ∧
    (processRecordedAudio s env).errorShown = true ∧
    (processRecordedAudio s env).final.recState = RecordingState.ready := by
  unfold processRecordedAudio
  rcases h with h | h
  · cases hmr : s.mediaRecorder <;>
      simp [h, hmr, resetToReadyState, updateButtonState]
  · rcases hEmp : s.audioChunks.isEmpty with _ | _ <;>
      cases hmr : s.mediaRecorder <;>
      simp [hEmp, h, hmr, resetToReadyState, updateButtonState]

/-- Witness for `empty_capture_no_network`: a stop with no buffered
chunks. -/
theorem empty_capture_no_network_witness :
    (processRecordedAudio ⟨.processing, [], some .inactive, false, false⟩
        allSuccessEnv).networkCalled = false ∧
    (processRecordedAudio ⟨.processing, [], some .inactive, false, false⟩
        allSuccessEnv).errorShown = true ∧
    (processRecordedAudio ⟨.processing, [], some .inactive, false, false⟩
        allSuccessEnv).final.recState = RecordingState.ready :=
  empty_capture_no_network ⟨.processing, [], some .inactive, false, false⟩
    allSuccessEnv (Or.inl rfl)

/-- **C9 (code bug).** Evaluating `startInterview` when the microphone
permission probe is denied: the session was moved to `PROCESSING` before
the probe and the `catch` never resets it, so the state is left at
`PROCESSING` (trigger control disabled), not at `READY`; the
`PermissionDenied` condition is signalled (the error is shown) but the
machine does not return to `READY`. -/
theorem permission_denied_leaves_processing :
    (startInterview initialSession true false).session.recState =
        RecordingState.processing ∧
    (startInterview initialSession true false).session.recState ≠
        RecordingState.ready ∧
    (startInterview initialSession true false).errorShown = true ∧
    buttonDisabled
        (startInterview initialSession true false).session.recState =
      true := by
  decide

/-- **C4.** Whenever `sendPromptAndHandleHistory` succeeds with reply
`r`, the persisted transcript afterwards is exactly the prior transcript
followed by the user turn and then the model turn `{model, r}` — strict
append in that order, nothing reordered or lost. -/
theorem chat_success_appends_in_order (stored : Option (List HistoryEntry))
    (p : String) (outcome : ChatOutcome)
    (st' : Option (List HistoryEntry)) (r : String)
    (h : sendPromptAndHandleHistory stored p outcome = (st', Except.ok r)) :
    st' = some (stored.getD [] ++ [⟨Role.user, p⟩, ⟨Role.model, r⟩]) := by
  unfold sendPromptAndHandleHistory at h
  split at h
  · simp at h
  · split at h
    · simp at h
    · split at h
      · simp at h
      · split at h
        · simp only [Prod.mk.injEq, Except.ok.injEq] at h
          obtain ⟨h1, h2⟩ := h
          subst h2
          simpa using h1.symm
        · split at h
          · simp only [Prod.mk.injEq, Except.ok.injEq] at h
            obtain ⟨h1, h2⟩ := h
            subst h2
            simpa using h1.symm
          · split at h
            · simp at h
            · split at h
              · simp at h
              · simp only [Prod.mk.injEq, Except.ok.injEq] at h
                obtain ⟨h1, h2⟩ := h
                subst h2
                simpa using h1.symm

/-- Witness for `chat_success_appends_in_order`: the specified scenario
`[{user,A},{model,B}]` plus utterance `"C"` and reply `"Lets begin"`. -/
theorem chat_success_appends_in_order_witness :
    (some [⟨Role.user, "A"⟩, ⟨Role.model, "B"⟩, ⟨Role.user, "C"⟩,
        ⟨Role.model, "Lets begin"⟩] : Option (List HistoryEntry)) =
      some ((some twoTurnHistory).getD [] ++
        [⟨Role.user, "C"⟩, ⟨Role.model, "Lets begin"⟩]) :=
  chat_success_appends_in_order (some twoTurnHistory) "C"
    (ChatOutcome.response okChatResponse)
    (some [⟨Role.user, "A"⟩, ⟨Role.model, "B"⟩, ⟨Role.user, "C"⟩,
      ⟨Role.model, "Lets begin"⟩])
    "Lets begin" rfl

/-- **C5.** If the remote chat call rejects or throws,
`sendPromptAndHandleHistory` leaves the persisted `conversationHistory`
unchanged — neither the user turn nor a model turn reaches storage — and
surfaces the error to the caller. -/
theorem chat_failure_preserves_history (stored : Option (List HistoryEntry))
    (p : String) (msg : String) (hp : p ≠ "") :
    (sendPromptAndHandleHistory stored p (ChatOutcome.apiError msg)).1 =
        stored ∧
    (sendPromptAndHandleHistory stored p (ChatOutcome.apiError msg)).2 =
        Except.error msg := by
  unfold sendPromptAndHandleHistory
  simp [hp]

/-- Witness for `chat_failure_preserves_history`: a quota failure leaves
the two-turn transcript untouched. -/
theorem chat_failure_preserves_history_witness :
    (sendPromptAndHandleHistory (some twoTurnHistory) "C"
        (ChatOutcome.apiError "API quota exceeded")).1 =
        some twoTurnHistory ∧
    (sendPromptAndHandleHistory (some twoTurnHistory) "C"
        (ChatOutcome.apiError "API quota exceeded")).2 =
        Except.error "API quota exceeded" :=
  chat_failure_preserves_history (some twoTurnHistory) "C"
    "API quota exceeded" (by decide)

/-- **C10.** If the chat call resolves but the first candidate has no
content parts (missing `content` or an empty `parts` array),
`sendPromptAndHandleHistory` does not raise: it persists the user turn
followed by an empty model turn `{model, ""}` and returns `""`. -/
theorem empty_parts_appends_empty_model_turn
    (stored : Option (List HistoryEntry)) (p : String) (resp : GenResponse)
    (cand : ResponseCandidate) (cs : List ResponseCandidate)
    (hp : p ≠ "") (hc : resp.candidates = cand :: cs)
    (hparts : cand.content = none ∨
      ∃ c, cand.content = some c ∧ c.parts = []) :
    sendPromptAndHandleHistory stored p (ChatOutcome.response resp) =
      (some ((stored.getD []) ++
          [⟨Role.user, p⟩, ⟨Role.model, ""⟩]), Except.ok "") := by
  unfold sendPromptAndHandleHistory
  rcases hparts with hnone | ⟨c, hsome, hparts⟩
  · simp [hp, hc, hnone]
  · simp [hp, hc, hsome, hparts]

/-- Witness for `empty_parts_appends_empty_model_turn`: a response whose
only candidate has no content. -/
theorem empty_parts_appends_empty_model_turn_witness :
    sendPromptAndHandleHistory (some twoTurnHistory) "C"
        (ChatOutcome.response ⟨[⟨none⟩]⟩) =
      (some (((some twoTurnHistory).getD []) ++
          [⟨Role.user, "C"⟩, ⟨Role.model, ""⟩]), Except.ok "") :=
  empty_parts_appends_empty_model_turn (some twoTurnHistory) "C"
    ⟨[⟨none⟩]⟩ ⟨none⟩ [] (by decide) rfl (Or.inl rfl)

theorem writeStringBytes_riff : writeStringBytes "RIFF" = [82, 73, 70, 70] := by
  decide

theorem writeStringBytes_wave : writeStringBytes "WAVE" = [87, 65, 86, 69] := by
  decide

theorem writeStringBytes_fmt : writeStringBytes "fmt " = [102, 109, 116, 32] := by
  decide

theorem writeStringBytes_data : writeStringBytes "data" = [100, 97, 116, 97] := by
  decide

/-- **C6.** For every non-empty PCM byte sequence and valid parameters
(the container cannot represent data lengths at or beyond `2^32 - 36`),
the WAV builder accepts the parameters, produces a 44-byte header whose
little-endian `data`-chunk size field at offset 40 equals the exact PCM
byte length and whose little-endian `RIFF` chunk-size field at offset 4
equals 36 plus that length, and the produced blob is exactly that header
immediately followed by the unmodified PCM bytes. -/
theorem wav_header_declares_exact_lengths (pcm : List Nat)
    (sampleRate numChannels bitsPerSample : Nat)
    (hsr : 0 < sampleRate)
    (hch : numChannels = 1 ∨ numChannels = 2)
    (hbits : bitsPerSample = 8 ∨ bitsPerSample = 16)
    (hpcm : pcm ≠ [])
    (hsize : 36 + pcm.length < 4294967296) :
    createWAVheader sampleRate numChannels bitsPerSample pcm.length =
        Except.ok (createWAVheaderCore sampleRate numChannels bitsPerSample
          pcm.length) ∧
    (createWAVheaderCore sampleRate numChannels bitsPerSample
        pcm.length).length = 44 ∧
    readU32LE (createWAVheaderCore sampleRate numChannels bitsPerSample
        pcm.length) 40 = pcm.length ∧
    readU32LE (createWAVheaderCore sampleRate numChannels bitsPerSample
        pcm.length) 4 = 36 + pcm.length ∧
    createWAVBlob pcm sampleRate numChannels bitsPerSample =
        Except.ok (createWAVheaderCore sampleRate numChannels bitsPerSample
          pcm.length ++ pcm) := by
  have hcore : createWAVheaderCore sampleRate numChannels bitsPerSample
      pcm.length =
      [82, 73, 70, 70] ++ u32le (36 + pcm.length) ++ [87, 65, 86, 69] ++
        [102, 109, 116, 32] ++ u32le 16 ++ u16le 1 ++ u16le numChannels ++
        u32le sampleRate ++
        u32le (sampleRate * (numChannels * bitsPerSample / 8)) ++
        u16le (numChannels * bitsPerSample / 8) ++ u16le bitsPerSample ++
        [100, 97, 116, 97] ++ u32le pcm.length := by
    unfold createWAVheaderCore
    rw [writeStringBytes_riff, writeStringBytes_wave, writeStringBytes_fmt,
      writeStringBytes_data]
  have hok : createWAVheader sampleRate numChannels bitsPerSample
      pcm.length = Except.ok (createWAVheaderCore sampleRate numChannels
        bitsPerSample pcm.length) := by
    unfold createWAVheader
    have h1 : ¬sampleRate = 0 := by omega
    have h2 : ¬(numChannels < 1 ∨ numChannels > 2) := by
      rcases hch with h | h <;> omega
    have h3 : ¬(bitsPerSample ≠ 16 ∧ bitsPerSample ≠ 8) := by
      rcases hbits with h | h <;> simp [h]
    simp [h1, h2, h3]
    omega
  refine ⟨hok, ?_, ?_, ?_, ?_⟩
  · rw [hcore]; simp [u32le, u16le]
  · rw [hcore]
    simp only [readU32LE, u32le, u16le]
    simp [List.getD_append, List.getD_append_right]
    omega
  · rw [hcore]
    simp only [readU32LE, u32le, u16le]
    simp [List.getD_append, List.getD_append_right]
    omega
  · unfold createWAVBlob
    have hlen : ¬pcm.length = 0 := by simpa using hpcm
    simp [hlen, hok]

/-- Witness for `wav_header_declares_exact_lengths`: a three-byte PCM
buffer at the synthesis default 24 kHz mono 16-bit. -/
theorem wav_header_declares_exact_lengths_witness :
    createWAVheader 24000 1 16 ([1, 2, 3] : List Nat).length =
        Except.ok (createWAVheaderCore 24000 1 16
          ([1, 2, 3] : List Nat).length) ∧
    (createWAVheaderCore 24000 1 16
        ([1, 2, 3] : List Nat).length).length = 44 ∧
    readU32LE (createWAVheaderCore 24000 1 16
        ([1, 2, 3] : List Nat).length) 40 = ([1, 2, 3] : List Nat).length ∧
    readU32LE (createWAVheaderCore 24000 1 16
        ([1, 2, 3] : List Nat).length) 4 =
        36 + ([1, 2, 3] : List Nat).length ∧
    createWAVBlob [1, 2, 3] 24000 1 16 =
        Except.ok (createWAVheaderCore 24000 1 16
          ([1, 2, 3] : List Nat).length ++ [1, 2, 3]) :=
  wav_header_declares_exact_lengths [1, 2, 3] 24000 1 16 (by decide)
    (Or.inl rfl) (Or.inr rfl) (by decide) (by decide)

theorem b64Index_b64Char_fin : ∀ n : Fin 64, b64Index (b64Char n.val) = n.val := by
  decide

theorem b64Index_b64Char (n : Nat) (h : n < 64) : b64Index (b64Char n) = n :=
  b64Index_b64Char_fin ⟨n, h⟩

theorem b64Char_ne_pad_fin : ∀ n : Fin 64, b64Char n.val ≠ '=' := by
  decide

theorem b64Char_ne_pad (n : Nat) (h : n < 64) : b64Char n ≠ '=' :=
  b64Char_ne_pad_fin ⟨n, h⟩

/-- Decoding inverts encoding on arbitrary byte sequences. -/
theorem b64_decode_encode : ∀ (bytes : List Nat),
    (∀ b ∈ bytes, b < 256) → b64Decode (b64Encode bytes) = bytes
  | [] => fun _ => rfl
  | [b0] => fun h => by
      have hb0 : b0 < 256 := h b0 (by simp)
      have e1 := b64Index_b64Char (b0 / 4) (by omega)
      have e2 := b64Index_b64Char (b0 % 4 * 16) (by omega)
      show b64Decode [b64Char (b0 / 4), b64Char (b0 % 4 * 16), '=', '='] =
        [b0]
      simp [b64Decode, e1, e2]
      omega
  | [b0, b1] => fun h => by
      have hb0 : b0 < 256 := h b0 (by simp)
      have hb1 : b1 < 256 := h b1 (by simp)
      have e1 := b64Index_b64Char (b0 / 4) (by omega)
      have e2 := b64Index_b64Char (b0 % 4 * 16 + b1 / 16) (by omega)
      have e3 := b64Index_b64Char (b1 % 16 * 4) (by omega)
      have hne : b64Char (b1 % 16 * 4) ≠ '=' := b64Char_ne_pad _ (by omega)
      show b64Decode [b64Char (b0 / 4), b64Char (b0 % 4 * 16 + b1 / 16),
        b64Char (b1 % 16 * 4), '='] = [b0, b1]
      simp [b64Decode, e1, e2, e3, hne]
      refine ⟨by omega, by omega⟩
  | b0 :: b1 :: b2 :: rest => fun h => by
      have hb0 : b0 < 256 := h b0 (by simp)
      have hb1 : b1 < 256 := h b1 (by simp)
      have hb2 : b2 < 256 := h b2 (by simp)
      have ih := b64_decode_encode rest (fun b hb => h b (by simp [hb]))
      have e1 := b64Index_b64Char (b0 / 4) (by omega)
      have e2 := b64Index_b64Char (b0 % 4 * 16 + b1 / 16) (by omega)
      have e3 := b64Index_b64Char (b1 % 16 * 4 + b2 / 64) (by omega)
      have e4 := b64Index_b64Char (b2 % 64) (by omega)
      have hne2 : b64Char (b1 % 16 * 4 + b2 / 64) ≠ '=' :=
        b64Char_ne_pad _ (by omega)
      have hne3 : b64Char (b2 % 64) ≠ '=' := b64Char_ne_pad _ (by omega)
      show b64Decode (b64Char (b0 / 4) :: b64Char (b0 % 4 * 16 + b1 / 16) ::
        b64Char (b1 % 16 * 4 + b2 / 64) :: b64Char (b2 % 64) ::
        b64Encode rest) = b0 :: b1 :: b2 :: rest
      simp [b64Decode, e1, e2, e3, e4, hne2, hne3, ih]
      refine ⟨by omega, by omega, by omega⟩

/-- **C7.** For every non-empty byte sequence, encoding to the base64
transport string (`blobToBase64`) and decoding it back
(`base64ToBufferArray`) returns a byte sequence identical to the
original. -/
theorem base64_transport_roundtrip (bytes : List Nat) (hne : bytes ≠ [])
    (hb : ∀ b ∈ bytes, b < 256) :
    ∃ s, blobToBase64 bytes = Except.ok s ∧
      base64ToBufferArray s = Except.ok bytes := by
  have henc : b64Encode bytes ≠ [] := by
    match bytes, hne with
    | [b0], _ => simp [b64Encode]
    | [b0, b1], _ => simp [b64Encode]
    | b0 :: b1 :: b2 :: rest, _ => simp [b64Encode]
  have hs : String.mk (b64Encode bytes) ≠ "" := fun heq =>
    henc (congrArg String.data heq)
  refine ⟨String.mk (b64Encode bytes), ?_, ?_⟩
  · unfold blobToBase64
    simp [hs]
  · unfold base64ToBufferArray
    rw [if_neg hs]
    rw [show (String.mk (b64Encode bytes)).data = b64Encode bytes from rfl]
    rw [b64_decode_encode bytes hb]

/-- Witness for `base64_transport_roundtrip`: the two bytes `"Hi"`. -/
theorem base64_transport_roundtrip_witness :
    ∃ s, blobToBase64 [72, 105] = Except.ok s ∧
      base64ToBufferArray s = Except.ok [72, 105] :=
  base64_transport_roundtrip [72, 105] (by decide) (by decide)
